import Mathlib

/-!
Shallow embedding of the valet-system-poc Cloudflare worker code.

The repository ships two worker variants:
  - src/worker/index.ts: a ConvexContainer class built on the
    "@cloudflare/containers" library (defaultPort 3210, fetch delegates to
    the platform containerFetch primitive) and a default fetch handler that
    routes "/api/"-prefixed paths to the container stub and answers 404
    otherwise, with no try/catch around the forwarding call.
  - src/unnamed/part_000: a Container Durable Object whose constructor
    starts the container context when present and not running, whose fetch
    forwards to getTcpPort(3210).fetch with the URL scheme rewritten by
    req.url.replace("https:", "http:"), converting a forwarding exception
    to a JSON 502 and any other exception to a text 500; plus a default
    handler like the one above but with a catch that converts a thrown
    value to a text 500.

Platform primitives (the container stub fetch, the TCP-port fetch, URL
construction) are parameters of the embedded functions: each is a function
returning Except Thrown Response, where an Except.error result models a
thrown JavaScript value.
-/

/-- A thrown JavaScript value: an Error carrying a message, or any other
value together with its String(...) conversion. -/
inductive Thrown where
  | error (message : String)
  | other (stringRep : String)
deriving DecidableEq

/-- The expression e instanceof Error ? e.message : String(e) used by every
catch clause in the code. -/
def errMessage : Thrown → String
  | Thrown.error m => m
  | Thrown.other s => s

/-- An HTTP request as the workers see it: url, method, headers, body. -/
structure Request where
  url : String
  method : String
  headers : List (String × String)
  body : Option String
deriving DecidableEq

/-- A response body: null, plain text, or the flat JSON object built by
Response.json (every field value in this code is a string). -/
inductive Body where
  | empty
  | text (s : String)
  | json (fields : List (String × String))
deriving DecidableEq

/-- An HTTP response: status, headers, body. -/
structure Response where
  status : Nat
  headers : List (String × String)
  body : Body
deriving DecidableEq

/-- new Response(null, obtained by setting status 404): the reply for every
path that does not begin with "/api/". -/
def notFoundResponse : Response :=
  { status := 404, headers := [], body := Body.empty }

/-- JavaScript String.startsWith (and the scheme tests below): an exact,
case-sensitive character-prefix test. -/
def jsStartsWith (s pre : String) : Bool :=
  pre.data.isPrefixOf s.data

/-- Characters up to but excluding the first query or fragment delimiter. -/
def untilQueryOrFrag (l : List Char) : List Char :=
  l.takeWhile fun c => c != '?' && c != '#'

/-- Skip the authority (host and port): drop characters until the first
path, query or fragment delimiter. -/
def skipAuthority : List Char → List Char
  | [] => []
  | c :: rest =>
    if c = '/' ∨ c = '?' ∨ c = '#' then c :: rest else skipAuthority rest

/-- The pathname property of new URL(url) for the http and https URLs a
worker fetch handler receives: the part after the authority up to the query
or fragment, defaulting to "/" when empty. -/
def pathnameOf (url : String) : String :=
  let rest : List Char :=
    if jsStartsWith url "https://" then url.data.drop 8
    else if jsStartsWith url "http://" then url.data.drop 7
    else []
  let p := untilQueryOrFrag (skipAuthority rest)
  if p.isEmpty then "/" else String.mk p

/-- JavaScript String.replace with a string pattern: replace only the first
occurrence of pat, leaving the string unchanged when pat does not occur. -/
def listReplaceFirst (pat repl : List Char) : List Char → List Char
  | [] => if pat.isEmpty then repl else []
  | c :: rest =>
    if pat.isPrefixOf (c :: rest) then repl ++ (c :: rest).drop pat.length
    else c :: listReplaceFirst pat repl rest

/-- String-level wrapper for listReplaceFirst: s.replace(pat, repl). -/
def jsReplace (s pat repl : String) : String :=
  String.mk (listReplaceFirst pat.data repl.data s.data)

/-- Whether pat occurs as a contiguous subsequence of l. -/
def containsSeq (pat : List Char) : List Char → Bool
  | [] => pat.isEmpty
  | c :: rest => pat.isPrefixOf (c :: rest) || containsSeq pat rest

/-- ConvexContainer.defaultPort (src/worker/index.ts line 4). -/
def ConvexContainer.defaultPort : Nat := 3210

/-- ConvexContainer.sleepAfter (src/worker/index.ts line 5). -/
def ConvexContainer.sleepAfter : String := "30m"

/-- ConvexContainer.fetch (src/worker/index.ts lines 7-9): return await
this.containerFetch(request). The platform containerFetch primitive is a
parameter; the request object is handed to it unchanged. -/
def ConvexContainer.fetch (containerFetch : Request → Except Thrown Response)
    (request : Request) : Except Thrown Response :=
  containerFetch request

/-- The default export fetch handler of src/worker/index.ts (lines 12-24).
stubFetch name req models env.CONTAINER.get(env.CONTAINER.idFromName(name)).fetch(req).
There is no try/catch: a value thrown by the stub fetch propagates out of
the handler, which the Except.error result records. -/
def ContainersWorker.handler
    (stubFetch : String → Request → Except Thrown Response)
    (request : Request) : Except Thrown Response :=
  if jsStartsWith (pathnameOf request.url) "/api/" then
    stubFetch "convex-backend" request
  else
    Except.ok notFoundResponse

/-- The per-request state of the Container Durable Object of
src/unnamed/part_000: whether ctx.container was provided, and the string
form of the Durable Object id. -/
structure DOState where
  containerPresent : Bool
  id : String
deriving DecidableEq

/-- The URL argument of the forwarding call (part_000 line 23):
req.url.replace("https:", "http:"). -/
def Container.forwardedUrl (req : Request) : String :=
  jsReplace req.url "https:" "http:"

/-- The Response.json value built when the container forwarding call threw
(part_000 lines 27-34): status 502, flat JSON object carrying the error
message. -/
def json502 (id path method : String) (e : Thrown) : Response :=
  { status := 502, headers := [],
    body := Body.json
      [("message", "Container available but failed to respond"),
       ("error", errMessage e),
       ("durableObjectId", id),
       ("path", path),
       ("method", method),
       ("containerStatus", "available_but_failed")] }

/-- The Response.json value built when no container context is available
(part_000 lines 40-47): Response.json with no init, so the default status
200. -/
def json200 (id path method : String) : Response :=
  { status := 200, headers := [],
    body := Body.json
      [("message", "HTTP passthrough infrastructure ready"),
       ("durableObjectId", id),
       ("path", path),
       ("method", method),
       ("containerStatus", "not_available"),
       ("note", "Container context not provided - this is expected in Cloudflare Containers beta")] }

/-- The plain-text response of the outer catch clause (part_000 line 49):
status 500, body the Durable Object id, a colon and the error message. -/
def text500 (id : String) (e : Thrown) : Response :=
  { status := 500, headers := [], body := Body.text (id ++ ": " ++ errMessage e) }

/-- The body of the outer try of Container.fetch (part_000 lines 19-47): if
a container context is present, forward to tcpFetch on port 3210 with the
rewritten URL; a thrown value from that call is converted to the JSON 502,
except that building it parses req.url again, which can itself throw
(Except.error). Without a container context, answer the JSON 200 fallback.
tcpFetch p url req models this.container.getTcpPort(p).fetch(url, req);
urlParse u models new URL(u), kept as its pathname. -/
def Container.fetchBody (st : DOState)
    (tcpFetch : Nat → String → Request → Except Thrown Response)
    (urlParse : String → Except Thrown String)
    (req : Request) : Except Thrown Response :=
  if st.containerPresent then
    match tcpFetch 3210 (Container.forwardedUrl req) req with
    | Except.ok resp => Except.ok resp
    | Except.error containerErr =>
      (urlParse req.url).map fun path => json502 st.id path req.method containerErr
  else
    (urlParse req.url).map fun path => json200 st.id path req.method

/-- Container.fetch (part_000 lines 18-51): the outer try/catch around
Container.fetchBody converts any value thrown there to the text 500, so the
method always returns a Response. -/
def Container.fetch (st : DOState)
    (tcpFetch : Nat → String → Request → Except Thrown Response)
    (urlParse : String → Except Thrown String)
    (req : Request) : Response :=
  match Container.fetchBody st tcpFetch urlParse req with
  | Except.ok resp => resp
  | Except.error err => text500 st.id err

/-- The one lifecycle action the Container constructor can take. -/
inductive CtorAction where
  | start
deriving DecidableEq

/-- The Container constructor (part_000 lines 7-16): when a container
context is present it runs, inside ctx.blockConcurrencyWhile and hence
before any request is processed, the check that starts the container iff it
is not already running; without a container context nothing happens. The
returned list holds the lifecycle actions taken. -/
def Container.constructorActions (containerPresent running : Bool) : List CtorAction :=
  if containerPresent then
    (if running then [] else [CtorAction.start])
  else []

/-- The default export fetch handler of src/unnamed/part_000 (lines 54-69):
the same routing as ContainersWorker.handler, but the forwarding call is
wrapped in a try/catch that converts a thrown value to a plain-text 500
carrying the error message. -/
def DurableObjectWorker.handler
    (stubFetch : String → Request → Except Thrown Response)
    (request : Request) : Response :=
  if jsStartsWith (pathnameOf request.url) "/api/" then
    match stubFetch "convex-backend" request with
    | Except.ok resp => resp
    | Except.error err =>
      { status := 500, headers := [], body := Body.text (errMessage err) }
  else
    notFoundResponse

/-- If pat is a prefix of s, JavaScript replace substitutes it there: the
result is repl followed by the rest of s. -/
theorem listReplaceFirst_of_isPrefix (pat repl s : List Char)
    (h : pat.isPrefixOf s = true) :
    listReplaceFirst pat repl s = repl ++ s.drop pat.length := by
  cases s with
  | nil =>
    cases pat with
    | nil => simp [listReplaceFirst]
    | cons a as => simp [List.isPrefixOf] at h
  | cons c rest => simp [listReplaceFirst, h]

/-- If pat does not occur in s, JavaScript replace leaves s unchanged. -/
theorem listReplaceFirst_of_not_contains (pat repl s : List Char)
    (h : containsSeq pat s = false) :
    listReplaceFirst pat repl s = s := by
  induction s with
  | nil =>
    simp [containsSeq] at h
    simp [listReplaceFirst, h]
  | cons c rest ih =>
    simp [containsSeq] at h
    simp [listReplaceFirst, h.1, ih h.2]

/-- On a URL that starts with the https scheme, the forwarding rewrite of
part_000 line 23 changes exactly that leading "https:" to "http:". -/
theorem forwardedUrl_https (rest m : String) (hs : List (String × String)) (b : Option String) :
    Container.forwardedUrl
      { url := "https:" ++ rest, method := m, headers := hs, body := b } = "http:" ++ rest := by
  show jsReplace ("https:" ++ rest) "https:" "http:" = "http:" ++ rest
  unfold jsReplace
  rw [String.data_append]
  rw [listReplaceFirst_of_isPrefix _ _ _
    (by rw [List.isPrefixOf_iff_prefix]; exact List.prefix_append _ _)]
  rw [List.drop_left]
  rfl

/-- On a URL in which "https:" does not occur at all, the forwarding
rewrite changes nothing. -/
theorem forwardedUrl_no_https (req : Request)
    (h : containsSeq "https:".data req.url.data = false) :
    Container.forwardedUrl req = req.url := by
  show jsReplace req.url "https:" "http:" = req.url
  unfold jsReplace
  rw [listReplaceFirst_of_not_contains _ _ _ h]

/-- Whether a response body carries a given message: as a substring for
text bodies, as a field value for the flat JSON bodies this code builds. -/
def bodyCarries (b : Body) (msg : String) : Bool :=
  match b with
  | Body.empty => false
  | Body.text s => containsSeq msg.data s.data
  | Body.json fields => fields.any fun kv => kv.2 == msg

/-- A pattern occurs in any list that ends with it. -/
theorem containsSeq_append_self (pat pre : List Char) :
    containsSeq pat (pre ++ pat) = true := by
  induction pre with
  | nil =>
    cases pat with
    | nil => simp [containsSeq]
    | cons c cs =>
      simp only [List.nil_append, containsSeq, Bool.or_eq_true]
      left
      rw [List.isPrefixOf_iff_prefix]
  | cons c cs ih => simp [containsSeq, ih]

/-- The text 500 built by the outer catch carries the error message. -/
theorem bodyCarries_text500 (id : String) (e : Thrown) :
    bodyCarries (text500 id e).body (errMessage e) = true := by
  show containsSeq (errMessage e).data (id ++ ": " ++ errMessage e).data = true
  rw [String.data_append]
  exact containsSeq_append_self _ _

/-- The JSON 502 built by the inner catch carries the error message. -/
theorem bodyCarries_json502 (id path method : String) (e : Thrown) :
    bodyCarries (json502 id path method e).body (errMessage e) = true := by
  simp [bodyCarries, json502]

/-- A fixed 200 response used as the downstream answer in concrete runs. -/
def okResponse : Response := { status := 200, headers := [], body := Body.text "ok" }

/-- A container stub that always answers okResponse. -/
def stubAlwaysOk : String → Request → Except Thrown Response :=
  fun _ _ => Except.ok okResponse

/-- A concrete request whose path begins with the routed segment. -/
def reqApiSlash : Request :=
  { url := "https://h/api/x", method := "GET", headers := [], body := none }

/-- A concrete request whose path is exactly the segment without the
trailing slash. -/
def reqApiBare : Request :=
  { url := "https://example.com/api", method := "GET", headers := [], body := none }

/-- A concrete request whose path differs from the routed segment only in
letter case. -/
def reqApiUpper : Request :=
  { url := "https://example.com/API/users", method := "GET", headers := [], body := none }

/-- A concrete http-scheme request whose query mentions an https URL. -/
def reqHttpWithHttpsQuery : Request :=
  { url := "http://h/api/a?next=https://b", method := "GET", headers := [], body := none }

/-- A TCP-port fetch that records the URL it was given in a response
header, to observe what the Durable Object forwards. -/
def recordingTcp : Nat → String → Request → Except Thrown Response :=
  fun _ url _ =>
    Except.ok { status := 200, headers := [("x-forwarded-url", url)], body := Body.empty }

/-- Claim C1: in both worker variants the fetch handler routes by the
single check pathname startsWith "/api/": on a match the request is
forwarded to the container stub and the stub response is returned, and
otherwise the 404 response with null body is returned. -/
theorem c1_route_dichotomy :
    (∀ (stubA stubB : String → Request → Except Thrown Response) (req : Request) (resp : Response),
      jsStartsWith (pathnameOf req.url) "/api/" = true →
      stubA "convex-backend" req = Except.ok resp →
      stubB "convex-backend" req = Except.ok resp →
      ContainersWorker.handler stubA req = Except.ok resp ∧
      DurableObjectWorker.handler stubB req = resp)
  ∧ (∀ (stubA stubB : String → Request → Except Thrown Response) (req : Request),
      jsStartsWith (pathnameOf req.url) "/api/" = false →
      ContainersWorker.handler stubA req = Except.ok notFoundResponse ∧
      DurableObjectWorker.handler stubB req = notFoundResponse) := by
  constructor
  · intro stubA stubB req resp hpre hA hB
    exact ⟨by simp [ContainersWorker.handler, hpre, hA],
           by simp [DurableObjectWorker.handler, hpre, hB]⟩
  · intro stubA stubB req hpre
    exact ⟨by simp [ContainersWorker.handler, hpre],
           by simp [DurableObjectWorker.handler, hpre]⟩

/-- Claim C2, counterexample: the src/worker/index.ts handler wraps its
forwarding call in no try/catch, so on an "/api/"-prefixed request whose
forwarding call throws, the thrown value escapes the handler instead of
becoming an HTTP error response; the claim that no exception escapes in
either worker variant is therefore false. -/
theorem c2_uncaught_escape_cex :
    ContainersWorker.handler (fun _ _ => Except.error (Thrown.error "boom")) reqApiSlash
      = Except.error (Thrown.error "boom") := by rfl

/-- Claim C2 as amended: in the Durable Object variant (src/unnamed/part_000)
every value thrown by the forwarding call is caught and converted to an
HTTP error response carrying the error message: the worker-level catch
answers a text 500 whose body is the message, and the Durable Object
converts a TCP forwarding error to the JSON 502 carrying the message; in
the src/worker/index.ts variant the handler has no try/catch and the thrown
value propagates out of the handler. -/
theorem c2_error_conversion_amended :
    (∀ (stub : String → Request → Except Thrown Response) (req : Request) (e : Thrown),
      jsStartsWith (pathnameOf req.url) "/api/" = true →
      stub "convex-backend" req = Except.error e →
      DurableObjectWorker.handler stub req
        = { status := 500, headers := [], body := Body.text (errMessage e) })
  ∧ (∀ (st : DOState) (tcpFetch : Nat → String → Request → Except Thrown Response)
       (urlParse : String → Except Thrown String) (req : Request) (e : Thrown) (path : String),
      st.containerPresent = true →
      tcpFetch 3210 (Container.forwardedUrl req) req = Except.error e →
      urlParse req.url = Except.ok path →
      Container.fetch st tcpFetch urlParse req = json502 st.id path req.method e ∧
      bodyCarries (json502 st.id path req.method e).body (errMessage e) = true)
  ∧ (∀ (stub : String → Request → Except Thrown Response) (req : Request) (e : Thrown),
      jsStartsWith (pathnameOf req.url) "/api/" = true →
      stub "convex-backend" req = Except.error e →
      ContainersWorker.handler stub req = Except.error e) := by
  refine ⟨?_, ?_, ?_⟩
  · intro stub req e hpre hs
    simp [DurableObjectWorker.handler, hpre, hs]
  · intro st tcpFetch urlParse req e path hst htcp hurl
    exact ⟨by simp [Container.fetch, Container.fetchBody, hst, htcp, hurl, Except.map],
           bodyCarries_json502 _ _ _ _⟩
  · intro stub req e hpre hs
    simp [ContainersWorker.handler, hpre, hs]

/-- Claim C3, counterexample: the Durable Object variant does not pass the
URL through unmodified: on the request with URL "https://h/api/x" the
TCP-port fetch receives the URL "http://h/api/x" (observed by a recording
fetch), which differs from the URL the client sent. -/
theorem c3_url_rewritten_cex :
    Container.fetch { containerPresent := true, id := "do1" } recordingTcp
        (fun u => Except.ok (pathnameOf u)) reqApiSlash
      = { status := 200, headers := [("x-forwarded-url", "http://h/api/x")], body := Body.empty }
    ∧ ("http://h/api/x" : String) ≠ reqApiSlash.url := by decide

/-- Claim C3 as amended: the forwarded request value (method, headers,
body) is the original request unmodified in both variants: the
src/worker/index.ts handler passes the request itself to the stub, the
ConvexContainer passes it to containerFetch, and the Durable Object passes
it to the TCP-port fetch; the URL is unmodified in the src/worker/index.ts
variant, while in the Durable Object variant the URL argument is the
original URL with its first occurrence of "https:" replaced by "http:". -/
theorem c3_forwarded_request_amended :
    (∀ (stub : String → Request → Except Thrown Response) (req : Request),
      jsStartsWith (pathnameOf req.url) "/api/" = true →
      ContainersWorker.handler stub req = stub "convex-backend" req)
  ∧ (∀ (containerFetch : Request → Except Thrown Response) (req : Request),
      ConvexContainer.fetch containerFetch req = containerFetch req)
  ∧ (∀ (st : DOState) (tcpFetch : Nat → String → Request → Except Thrown Response)
       (urlParse : String → Except Thrown String) (req : Request),
      st.containerPresent = true →
      Container.fetch st tcpFetch urlParse req =
        (match tcpFetch 3210 (Container.forwardedUrl req) req with
         | Except.ok resp => resp
         | Except.error e =>
           match urlParse req.url with
           | Except.ok path => json502 st.id path req.method e
           | Except.error e2 => text500 st.id e2)) := by
  refine ⟨?_, ?_, ?_⟩
  · intro stub req hpre
    simp [ContainersWorker.handler, hpre]
  · intro containerFetch req
    rfl
  · intro st tcpFetch urlParse req hst
    cases htcp : tcpFetch 3210 (Container.forwardedUrl req) req with
    | ok resp => simp [Container.fetch, Container.fetchBody, hst, htcp]
    | error e =>
      cases hurl : urlParse req.url with
      | ok path => simp [Container.fetch, Container.fetchBody, hst, htcp, hurl, Except.map]
      | error e2 => simp [Container.fetch, Container.fetchBody, hst, htcp, hurl, Except.map]

/-- Claim C4, counterexample: the rewrite req.url.replace("https:", "http:")
substitutes the first occurrence of "https:" anywhere in the URL, so the
http-scheme URL "http://h/api/a?next=https://b", whose scheme is already
"http:", is not left unchanged: its query is rewritten. -/
theorem c4_http_url_changed_cex :
    Container.forwardedUrl reqHttpWithHttpsQuery = "http://h/api/a?next=http://b"
    ∧ Container.forwardedUrl reqHttpWithHttpsQuery ≠ reqHttpWithHttpsQuery.url := by decide

/-- Claim C4 as amended: the URL sent to the container is the incoming URL
with its first occurrence of the substring "https:" replaced by "http:".
For a URL whose scheme is "https:" this changes exactly the scheme and
leaves host, port, path, query and fragment unchanged; a URL in which
"https:" does not occur at all is unchanged. -/
theorem c4_scheme_rewrite_amended :
    (∀ (rest m : String) (hs : List (String × String)) (b : Option String),
      Container.forwardedUrl { url := "https:" ++ rest, method := m, headers := hs, body := b }
        = "http:" ++ rest)
  ∧ (∀ req : Request, containsSeq "https:".data req.url.data = false →
      Container.forwardedUrl req = req.url) :=
  ⟨forwardedUrl_https, forwardedUrl_no_https⟩

/-- Claim C5: the Durable Object fetch yields exactly these outcomes: the
downstream response verbatim on success; on a value thrown by the container
forwarding call, the JSON 502 whose body carries the error message; without
a container context, the JSON 200 fallback; and on a value thrown elsewhere
in the handler (URL construction), the plain-text 500 whose body carries
the error message. No other error status is produced. -/
theorem c5_error_statuses (st : DOState)
    (tcpFetch : Nat → String → Request → Except Thrown Response)
    (urlParse : String → Except Thrown String) (req : Request) :
    (∃ resp, st.containerPresent = true ∧
        tcpFetch 3210 (Container.forwardedUrl req) req = Except.ok resp ∧
        Container.fetch st tcpFetch urlParse req = resp)
  ∨ (∃ e path, st.containerPresent = true ∧
        tcpFetch 3210 (Container.forwardedUrl req) req = Except.error e ∧
        urlParse req.url = Except.ok path ∧
        Container.fetch st tcpFetch urlParse req = json502 st.id path req.method e ∧
        (json502 st.id path req.method e).status = 502 ∧
        bodyCarries (json502 st.id path req.method e).body (errMessage e) = true)
  ∨ (∃ path, st.containerPresent = false ∧
        urlParse req.url = Except.ok path ∧
        Container.fetch st tcpFetch urlParse req = json200 st.id path req.method ∧
        (json200 st.id path req.method).status = 200)
  ∨ (∃ e, urlParse req.url = Except.error e ∧
        Container.fetch st tcpFetch urlParse req = text500 st.id e ∧
        (text500 st.id e).status = 500 ∧
        bodyCarries (text500 st.id e).body (errMessage e) = true) := by
  by_cases hst : st.containerPresent = true
  · cases htcp : tcpFetch 3210 (Container.forwardedUrl req) req with
    | ok resp =>
      left
      exact ⟨resp, hst, rfl, by simp [Container.fetch, Container.fetchBody, hst, htcp]⟩
    | error e =>
      cases hurl : urlParse req.url with
      | ok path =>
        right; left
        exact ⟨e, path, hst, rfl, rfl,
          by simp [Container.fetch, Container.fetchBody, hst, htcp, hurl, Except.map],
          rfl, bodyCarries_json502 _ _ _ _⟩
      | error e2 =>
        right; right; right
        exact ⟨e2, rfl,
          by simp [Container.fetch, Container.fetchBody, hst, htcp, hurl, Except.map],
          rfl, bodyCarries_text500 _ _⟩
  · have hst' : st.containerPresent = false := by
      revert hst; cases st.containerPresent <;> simp
    cases hurl : urlParse req.url with
    | ok path =>
      right; right; left
      exact ⟨path, hst',
        rfl, by simp [Container.fetch, Container.fetchBody, hst', hurl, Except.map], rfl⟩
    | error e2 =>
      right; right; right
      exact ⟨e2, rfl,
        by simp [Container.fetch, Container.fetchBody, hst', hurl, Except.map],
        rfl, bodyCarries_text500 _ _⟩

/-- Claim C6: when the downstream fetch of a forwarded "/api/"-prefixed
request succeeds, the response handed back to the client is exactly the
downstream response, with status, headers and body unmodified: at the
worker level in both variants, and at the Durable Object level for the
TCP-port fetch. -/
theorem c6_response_verbatim :
    (∀ (stub : String → Request → Except Thrown Response) (req : Request) (resp : Response),
      jsStartsWith (pathnameOf req.url) "/api/" = true →
      stub "convex-backend" req = Except.ok resp →
      ContainersWorker.handler stub req = Except.ok resp ∧
      DurableObjectWorker.handler stub req = resp)
  ∧ (∀ (st : DOState) (tcpFetch : Nat → String → Request → Except Thrown Response)
       (urlParse : String → Except Thrown String) (req : Request) (resp : Response),
      st.containerPresent = true →
      tcpFetch 3210 (Container.forwardedUrl req) req = Except.ok resp →
      Container.fetch st tcpFetch urlParse req = resp) := by
  constructor
  · intro stub req resp hpre hs
    exact ⟨by simp [ContainersWorker.handler, hpre, hs],
           by simp [DurableObjectWorker.handler, hpre, hs]⟩
  · intro st tcpFetch urlParse req resp hst htcp
    simp [Container.fetch, Container.fetchBody, hst, htcp]

/-- Claim C7: every forwarded request targets the same singleton: both
handlers derive the stub from the constant name "convex-backend"
independently of the request, ConvexContainer.defaultPort is 3210, and the
Durable Object consults the TCP-port fetch only at port 3210 (two port
functions agreeing at 3210 give identical results). -/
theorem c7_singleton_target :
    ConvexContainer.defaultPort = 3210
  ∧ (∀ (stub : String → Request → Except Thrown Response) (req : Request),
      jsStartsWith (pathnameOf req.url) "/api/" = true →
      ContainersWorker.handler stub req = stub "convex-backend" req)
  ∧ (∀ (stub : String → Request → Except Thrown Response) (req : Request) (resp : Response),
      jsStartsWith (pathnameOf req.url) "/api/" = true →
      stub "convex-backend" req = Except.ok resp →
      DurableObjectWorker.handler stub req = resp)
  ∧ (∀ (st : DOState) (tcpA tcpB : Nat → String → Request → Except Thrown Response)
       (urlParse : String → Except Thrown String) (req : Request),
      (∀ u r, tcpA 3210 u r = tcpB 3210 u r) →
      Container.fetch st tcpA urlParse req = Container.fetch st tcpB urlParse req) := by
  refine ⟨rfl, ?_, ?_, ?_⟩
  · intro stub req hpre
    simp [ContainersWorker.handler, hpre]
  · intro stub req resp hpre hs
    simp [DurableObjectWorker.handler, hpre, hs]
  · intro st tcpA tcpB urlParse req hagree
    simp only [Container.fetch, Container.fetchBody, hagree]

/-- Claim C8: when no container context is available, the Durable Object
fetch answers the Response.json fallback with the default success status
200, whose body reports containerStatus "not_available" together with the
Durable Object id, the request path and the method. -/
theorem c8_fallback_ok (st : DOState)
    (tcpFetch : Nat → String → Request → Except Thrown Response)
    (urlParse : String → Except Thrown String) (req : Request) (path : String)
    (h : st.containerPresent = false) (hu : urlParse req.url = Except.ok path) :
    Container.fetch st tcpFetch urlParse req = json200 st.id path req.method
    ∧ (json200 st.id path req.method).status = 200
    ∧ (json200 st.id path req.method).body = Body.json
        [("message", "HTTP passthrough infrastructure ready"),
         ("durableObjectId", st.id),
         ("path", path),
         ("method", req.method),
         ("containerStatus", "not_available"),
         ("note", "Container context not provided - this is expected in Cloudflare Containers beta")] := by
  refine ⟨?_, rfl, rfl⟩
  simp [Container.fetch, Container.fetchBody, h, hu, Except.map]

/-- A concrete POST request used to run claim C8. -/
def reqC8 : Request :=
  { url := "https://h/api/ping", method := "POST", headers := [], body := none }

/-- Claim C8, witness: the fallback case run on a concrete Durable Object
state and POST request. -/
theorem c8_fallback_ok_witness :
    Container.fetch { containerPresent := false, id := "do-w" }
        (fun _ _ _ => Except.ok okResponse) (fun u => Except.ok (pathnameOf u)) reqC8
      = json200 "do-w" "/api/ping" "POST"
    ∧ (json200 "do-w" "/api/ping" "POST").status = 200
    ∧ (json200 "do-w" "/api/ping" "POST").body = Body.json
        [("message", "HTTP passthrough infrastructure ready"),
         ("durableObjectId", "do-w"),
         ("path", "/api/ping"),
         ("method", "POST"),
         ("containerStatus", "not_available"),
         ("note", "Container context not provided - this is expected in Cloudflare Containers beta")] :=
  c8_fallback_ok { containerPresent := false, id := "do-w" }
    (fun _ _ _ => Except.ok okResponse) (fun u => Except.ok (pathnameOf u)) reqC8 "/api/ping"
    rfl (by rfl)

/-- Claim C9: the routing check is exact and case-sensitive: the path
"/api" without a trailing slash and the upper-case path "/API/users" are
not forwarded and receive the 404 response in both worker variants, even
with a stub that would answer. -/
theorem c9_prefix_exact_case_sensitive :
    ContainersWorker.handler stubAlwaysOk reqApiBare = Except.ok notFoundResponse
  ∧ DurableObjectWorker.handler stubAlwaysOk reqApiBare = notFoundResponse
  ∧ ContainersWorker.handler stubAlwaysOk reqApiUpper = Except.ok notFoundResponse
  ∧ DurableObjectWorker.handler stubAlwaysOk reqApiUpper = notFoundResponse
  ∧ pathnameOf reqApiBare.url = "/api"
  ∧ pathnameOf reqApiUpper.url = "/API/users" := by
  refine ⟨by rfl, by decide, by rfl, by decide, by decide, by decide⟩

/-- Claim C10: the Durable Object constructor, which runs inside
blockConcurrencyWhile and hence before any request is processed, takes the
start action exactly when a container context is present and the container
is not already running; without a container context it takes no action. -/
theorem c10_constructor_start (containerPresent running : Bool) :
    (CtorAction.start ∈ Container.constructorActions containerPresent running ↔
      containerPresent = true ∧ running = false)
  ∧ Container.constructorActions false running = [] := by
  constructor
  · cases containerPresent <;> cases running <;>
      simp [Container.constructorActions]
  · cases running <;> simp [Container.constructorActions]
